import Mathlib

/-!
# Verification of the OCR grounding and response-resolution pipeline

A shallow embedding, in Lean 4, of the core of the `ocr-api-backend`
repository: the EasyOCR token extraction and reading-order formatting
(`services/easyocr_service.py`), the hybrid Gemini pipeline with its
JSON extraction and schema validation (`services/gemini_service_v3.py`),
the pydantic field model and default JSON schemas (`models/schemas.py`),
and the `/ocr/process` endpoint logic (`main.py`).

Machine floats are embedded as rationals (`Rat`), Python dicts holding
JSON data as an inductive `Json` type, and raised exceptions as `Except`
values.  External collaborators (the PDF rasterizer, the OCR engine and
the remote Gemini calls) enter as explicit parameters holding their
outcome, as the spec treats them as opaque boundary adapters.
-/

/-- JSON values, as produced by Python `json.loads`.  Python keeps
`int` and `float` apart; both embed into `Json.num` with a `Rat`
payload, which is all the schemas in this repository distinguish. -/
inductive Json where
  | null : Json
  | bool (b : Bool) : Json
  | num (q : Rat) : Json
  | str (s : String) : Json
  | arr (elems : List Json) : Json
  | obj (members : List (String × Json)) : Json

/-- Error raised by `json.loads` / constructed by
`_extract_json_from_response` (models `json.JSONDecodeError`); we keep
the message and the position argument. -/
structure JSONDecodeError where
  msg : String
  pos : Nat
deriving DecidableEq

/-- JSON whitespace characters accepted by the Python `json` module. -/
def isJsonWs (c : Char) : Bool :=
  c = ' ' || c = '\t' || c = '\n' || c = '\r'

/-- Drop leading JSON whitespace. -/
def skipWs : List Char → List Char
  | [] => []
  | c :: rest => if isJsonWs c then skipWs rest else c :: rest

/-- Value of a hex digit, for `\uXXXX` string escapes. -/
def hexVal (c : Char) : Option Nat :=
  if '0' ≤ c ∧ c ≤ '9' then some (c.toNat - '0'.toNat)
  else if 'a' ≤ c ∧ c ≤ 'f' then some (c.toNat - 'a'.toNat + 10)
  else if 'A' ≤ c ∧ c ≤ 'F' then some (c.toNat - 'A'.toNat + 10)
  else none

/-- Scan the body of a JSON string literal (opening quote already
consumed), honouring the escape sequences of RFC 8259.  Fuel bounds the
number of consumed characters. -/
def parseStringAux : Nat → List Char → String → Option (String × List Char)
  | 0, _, _ => none
  | _ + 1, [], _ => none
  | fuel + 1, c :: rest, acc =>
    if c = '"' then some (acc, rest)
    else if c = '\\' then
      match rest with
      | [] => none
      | e :: rest2 =>
        if e = '"' then parseStringAux fuel rest2 (acc.push '"')
        else if e = '\\' then parseStringAux fuel rest2 (acc.push '\\')
        else if e = '/' then parseStringAux fuel rest2 (acc.push '/')
        else if e = 'b' then parseStringAux fuel rest2 (acc.push (Char.ofNat 8))
        else if e = 'f' then parseStringAux fuel rest2 (acc.push (Char.ofNat 12))
        else if e = 'n' then parseStringAux fuel rest2 (acc.push '\n')
        else if e = 'r' then parseStringAux fuel rest2 (acc.push '\r')
        else if e = 't' then parseStringAux fuel rest2 (acc.push '\t')
        else if e = 'u' then
          match rest2 with
          | h1 :: h2 :: h3 :: h4 :: rest3 =>
            match hexVal h1, hexVal h2, hexVal h3, hexVal h4 with
            | some a, some b, some c2, some d =>
              parseStringAux fuel rest3
                (acc.push (Char.ofNat (((a * 16 + b) * 16 + c2) * 16 + d)))
            | _, _, _, _ => none
          | _ => none
        else none
    else parseStringAux fuel rest (acc.push c)

/-- Decimal digit test. -/
def isDig (c : Char) : Bool := '0' ≤ c ∧ c ≤ '9'

/-- Numeric value of a run of decimal digits. -/
def digitsToNat (ds : List Char) : Nat :=
  ds.foldl (fun acc c => acc * 10 + (c.toNat - '0'.toNat)) 0

/-- Parse a JSON number (integer part, optional fraction, optional
exponent, optional leading minus) into a rational. -/
def parseNumber (cs : List Char) : Option (Rat × List Char) :=
  let (neg, cs1) :=
    match cs with
    | '-' :: rest => (true, rest)
    | _ => (false, cs)
  let intDigits := cs1.takeWhile isDig
  let cs2 := cs1.dropWhile isDig
  if intDigits = [] then none
  else
    let (fracDigits, cs3) :=
      match cs2 with
      | '.' :: rest =>
        if rest.takeWhile isDig = [] then ([], cs2)
        else (rest.takeWhile isDig, rest.dropWhile isDig)
      | _ => ([], cs2)
    let (expVal, cs4) :=
      match cs3 with
      | e :: rest =>
        if e = 'e' ∨ e = 'E' then
          match rest with
          | '+' :: rest2 =>
            if rest2.takeWhile isDig = [] then ((0 : Int), cs3)
            else ((digitsToNat (rest2.takeWhile isDig) : Int), rest2.dropWhile isDig)
          | '-' :: rest2 =>
            if rest2.takeWhile isDig = [] then ((0 : Int), cs3)
            else (-(digitsToNat (rest2.takeWhile isDig) : Int), rest2.dropWhile isDig)
          | _ =>
            if rest.takeWhile isDig = [] then ((0 : Int), cs3)
            else ((digitsToNat (rest.takeWhile isDig) : Int), rest.dropWhile isDig)
        else ((0 : Int), cs3)
      | [] => ((0 : Int), cs3)
    let k := fracDigits.length
    -- value = ±(intpart.fracpart) · 10^exp, built as a single fraction so
    -- that the result is a plain `mkRat` of machine integers
    let mant : Nat := digitsToNat intDigits * 10 ^ k + digitsToNat fracDigits
    let numerator : Int :=
      if expVal ≥ 0 then (mant * 10 ^ expVal.toNat : Nat) else (mant : Int)
    let denominator : Nat :=
      if expVal ≥ 0 then 10 ^ k else 10 ^ k * 10 ^ (-expVal).toNat
    let q : Rat := mkRat (if neg then -numerator else numerator) denominator
    some (q, cs4)

mutual

/-- Parse one JSON value from the head of the character stream
(leading whitespace allowed), returning the remaining stream. -/
def parseValue : Nat → List Char → Option (Json × List Char)
  | 0, _ => none
  | fuel + 1, cs =>
    match skipWs cs with
    | [] => none
    | c :: rest =>
      if c = '{' then
        match skipWs rest with
        | '}' :: rest2 => some (Json.obj [], rest2)
        | _ =>
          match parseMembers fuel rest [] with
          | some (ms, rest2) => some (Json.obj ms, rest2)
          | none => none
      else if c = '[' then
        match skipWs rest with
        | ']' :: rest2 => some (Json.arr [], rest2)
        | _ =>
          match parseItems fuel rest [] with
          | some (vs, rest2) => some (Json.arr vs, rest2)
          | none => none
      else if c = '"' then
        match parseStringAux (rest.length + 1) rest "" with
        | some (s, rest2) => some (Json.str s, rest2)
        | none => none
      else if c = 't' then
        match rest with
        | 'r' :: 'u' :: 'e' :: rest2 => some (Json.bool true, rest2)
        | _ => none
      else if c = 'f' then
        match rest with
        | 'a' :: 'l' :: 's' :: 'e' :: rest2 => some (Json.bool false, rest2)
        | _ => none
      else if c = 'n' then
        match rest with
        | 'u' :: 'l' :: 'l' :: rest2 => some (Json.null, rest2)
        | _ => none
      else if c = '-' ∨ isDig c then
        match parseNumber (c :: rest) with
        | some (q, rest2) => some (Json.num q, rest2)
        | none => none
      else none

/-- Parse the members of a JSON object, the opening `{` already
consumed and at least one member expected. -/
def parseMembers : Nat → List Char → List (String × Json) →
    Option (List (String × Json) × List Char)
  | 0, _, _ => none
  | fuel + 1, cs, acc =>
    match skipWs cs with
    | '"' :: rest =>
      match parseStringAux (rest.length + 1) rest "" with
      | none => none
      | some (key, rest2) =>
        match skipWs rest2 with
        | ':' :: rest3 =>
          match parseValue fuel rest3 with
          | none => none
          | some (v, rest4) =>
            match skipWs rest4 with
            | ',' :: rest5 => parseMembers fuel rest5 (acc ++ [(key, v)])
            | '}' :: rest5 => some (acc ++ [(key, v)], rest5)
            | _ => none
        | _ => none
    | _ => none

/-- Parse the items of a JSON array, the opening `[` already consumed
and at least one item expected. -/
def parseItems : Nat → List Char → List Json →
    Option (List Json × List Char)
  | 0, _, _ => none
  | fuel + 1, cs, acc =>
    match parseValue fuel cs with
    | none => none
    | some (v, rest) =>
      match skipWs rest with
      | ',' :: rest2 => parseItems fuel rest2 (acc ++ [v])
      | ']' :: rest2 => some (acc ++ [v], rest2)
      | _ => none

end

/-- Embedding of Python `json.loads`: parse one value, then require
only trailing whitespace. -/
def json_loads (s : String) : Except JSONDecodeError Json :=
  let cs := s.data
  match parseValue (cs.length + 1) cs with
  | none => Except.error ⟨"Expecting value", 0⟩
  | some (j, rest) =>
    if skipWs rest = [] then Except.ok j else Except.error ⟨"Extra data", 0⟩

/-! ## Response resolution (`HybridGeminiService._extract_json_from_response`) -/

/-- Whitespace as stripped by Python `str.strip()` (ASCII part). -/
def isPyWs (c : Char) : Bool :=
  c = ' ' || c = '\t' || c = '\n' || c = '\r' || c = '\x0b' || c = '\x0c'

/-- Python `str.strip()`: drop leading and trailing whitespace. -/
def pyStrip (cs : List Char) : List Char :=
  ((cs.dropWhile isPyWs).reverse.dropWhile isPyWs).reverse

/-- The brace-matching loop of `_extract_json_from_response`: walk the
text from the first `{`, incrementing the depth on `{` and decrementing
on `}`; stop with the (exclusive) end index as soon as the depth
returns to zero.  Returns the final depth together with the break
index, mirroring `brace_count` / `end_idx` of the Python loop. -/
def braceScan (count : Int) (i : Nat) : List Char → Int × Option Nat
  | [] => (count, none)
  | c :: rest =>
    if c = '{' then braceScan (count + 1) (i + 1) rest
    else if c = '}' then
      if count - 1 = 0 then (count - 1, some (i + 1))
      else braceScan (count - 1) (i + 1) rest
    else braceScan count (i + 1) rest

/-- Embedding of `HybridGeminiService._extract_json_from_response`:
first a direct `json.loads` of the whole text; on failure, strip the
text, look for the first `{`, and parse the brace-balanced substring
located by `braceScan`. -/
def extract_json_from_response (response_text : String) : Except JSONDecodeError Json :=
  match json_loads response_text with
  | Except.ok j => Except.ok j
  | Except.error _ =>
    let t : List Char := pyStrip response_text.data
    match t.findIdx? (fun c => c = '{') with
    | none => Except.error ⟨"No JSON object found in response", 0⟩
    | some start =>
      let scanned := braceScan 0 start (t.drop start)
      let endIdx := scanned.2.getD start
      if scanned.1 ≠ 0 then Except.error ⟨"Unmatched braces in JSON", start⟩
      else json_loads (String.mk ((t.drop start).take (endIdx - start)))

/-- Depth contribution of one character. -/
def braceDelta (c : Char) : Int :=
  if c = '{' then 1 else if c = '}' then -1 else 0

/-- Net brace depth of a character sequence. -/
def braceNet (cs : List Char) : Int :=
  (cs.map braceDelta).sum

/-- `m` is the length of the minimal non-empty brace-depth-balanced
prefix of `cs` — the specification-side description of the substring
the brace-matching loop is meant to return. -/
def IsMinBalanced (cs : List Char) (m : Nat) : Prop :=
  1 ≤ m ∧ m ≤ cs.length ∧ braceNet (cs.take m) = 0 ∧
    ∀ m', 1 ≤ m' → m' < m → braceNet (cs.take m') ≠ 0

/-! ## EasyOCR extraction (`EasyOCRService.extract_from_pdf` / `format_for_llm`) -/

/-- A quadrilateral as returned by `reader.readtext`:
`[[x1,y1], [x2,y2], [x3,y3], [x4,y4]]`. -/
structure Quad where
  p1 : Rat × Rat
  p2 : Rat × Rat
  p3 : Rat × Rat
  p4 : Rat × Rat
deriving DecidableEq

/-- One raw `(bbox, text, confidence)` triple from the OCR engine. -/
structure RawOCRItem where
  bbox : Quad
  text : String
  confidence : Rat
deriving DecidableEq

/-- A rasterized page image together with the engine output for it
(the engine is an external collaborator, so its answer is data). -/
structure PageImage where
  width : Nat
  height : Nat
  readtext : List RawOCRItem

/-- Axis-aligned box `[x0, y0, x1, y1]` (top-left, bottom-right). -/
structure BBox where
  x0 : Rat
  y0 : Rat
  x1 : Rat
  y1 : Rat
deriving DecidableEq

/-- One retained text element of a page. -/
structure TextElement where
  text : String
  bbox : BBox
  confidence : Rat
  page : Nat
deriving DecidableEq

/-- Per-page OCR result re-packaged by `extract_from_pdf`. -/
structure PageData where
  page_number : Nat
  page_width : Nat
  page_height : Nat
  text_elements : List TextElement
deriving DecidableEq

/-- `x0, y0 = min(x_coords), min(y_coords)` and
`x1, y1 = max(x_coords), max(y_coords)` over the quad's four points
(Python `min`/`max` over the four-element coordinate lists). -/
def quadBBox (q : Quad) : BBox :=
  { x0 := min (min (min q.p1.1 q.p2.1) q.p3.1) q.p4.1
    y0 := min (min (min q.p1.2 q.p2.2) q.p3.2) q.p4.2
    x1 := max (max (max q.p1.1 q.p2.1) q.p3.1) q.p4.1
    y1 := max (max (max q.p1.2 q.p2.2) q.p3.2) q.p4.2 }

/-- Python `str.strip()` on a `String`. -/
def pyStripStr (s : String) : String :=
  String.mk (pyStrip s.data)

/-- The confidence cutoff `0.3` of the source (floats embedded as
rationals). -/
def confidenceCutoff : Rat := mkRat 3 10

/-- Loop body of `extract_from_pdf` for one page: build the element
with stripped text, derived box and 1-based page number, and retain it
only when `confidence > 0.3 and text.strip()`. -/
def pageExtract (page_num : Nat) (image : PageImage) : PageData :=
  { page_number := page_num + 1
    page_width := image.width
    page_height := image.height
    text_elements := image.readtext.filterMap (fun item =>
      let te : TextElement :=
        { text := pyStripStr item.text
          bbox := quadBBox item.bbox
          confidence := item.confidence
          page := page_num + 1 }
      if item.confidence > confidenceCutoff ∧ pyStripStr item.text ≠ "" then some te
      else none) }

/-- Embedding of `EasyOCRService.extract_from_pdf`, after the external
rasterizer and OCR engine produced `images`. -/
def extract_from_pdf (images : List PageImage) : List PageData :=
  images.enum.map (fun pi => pageExtract pi.1 pi.2)

/-- `document_info` of the formatted output. -/
structure DocumentInfo where
  total_pages : Nat
  total_text_elements : Nat
deriving DecidableEq

/-- `dimensions` of a page entry. -/
structure PageDimensions where
  width : Nat
  height : Nat
deriving DecidableEq

/-- One `pages` entry of the formatted output. -/
structure PageInfo where
  page_number : Nat
  dimensions : PageDimensions
  text_elements : List TextElement
deriving DecidableEq

/-- One entry of `text_with_coordinates`. -/
structure CoordElement where
  text : String
  page : Nat
  bbox : BBox
  confidence : Rat
deriving DecidableEq

/-- The dictionary built by `format_for_llm`. -/
structure OcrData where
  document_info : DocumentInfo
  pages : List PageInfo
  all_text : String
  text_with_coordinates : List CoordElement

/-- The reading-order key comparison: Python tuple order on
`(bbox[1], bbox[0])`, i.e. `(y0, x0)` lexicographically. -/
def readingOrderLE (a b : TextElement) : Bool :=
  decide (a.bbox.y0 < b.bbox.y0 ∨ (a.bbox.y0 = b.bbox.y0 ∧ a.bbox.x0 ≤ b.bbox.x0))

/-- Python `sorted(elements, key=lambda x: (x["bbox"][1], x["bbox"][0]))`
— a stable sort on the `(y0, x0)` key, embedded as a stable merge
sort. -/
def sortPageElements (elems : List TextElement) : List TextElement :=
  elems.mergeSort readingOrderLE

/-- Embedding of `EasyOCRService.format_for_llm`. -/
def format_for_llm (ocr_data : List PageData) : OcrData :=
  { document_info :=
      { total_pages := ocr_data.length
        total_text_elements := (ocr_data.map (fun p => p.text_elements.length)).sum }
    pages := ocr_data.map (fun p =>
      { page_number := p.page_number
        dimensions := { width := p.page_width, height := p.page_height }
        text_elements := p.text_elements })
    all_text := String.intercalate "\n\n" (ocr_data.map (fun p =>
      "[Page " ++ toString p.page_number ++ "] " ++
        String.intercalate " " ((sortPageElements p.text_elements).map (fun e => e.text))))
    text_with_coordinates := ocr_data.flatMap (fun p =>
      (sortPageElements p.text_elements).map (fun e =>
        { text := e.text, page := e.page, bbox := e.bbox, confidence := e.confidence })) }

/-- Embedding of `EasyOCRService.process_pdf_for_llm`: extraction
followed by formatting. -/
def process_pdf_for_llm (images : List PageImage) : OcrData :=
  format_for_llm (extract_from_pdf images)

/-! ## JSON Schema validation (`jsonschema.validate`, `models/schemas.py`) -/

/-- Key lookup in a JSON object (`None` on other shapes). -/
def Json.lookupKey (j : Json) (k : String) : Option Json :=
  match j with
  | Json.obj kvs => kvs.lookup k
  | _ => none

/-- Scalar (non-container, non-null) JSON values. -/
def Json.isScalar : Json → Bool
  | Json.num _ => true
  | Json.str _ => true
  | Json.bool _ => true
  | _ => false

/-- The `type` keyword test of JSON Schema draft 7 as applied by the
`jsonschema` package for the primitive type names. -/
def typeMatches (t : String) (j : Json) : Bool :=
  if t = "object" then (match j with | Json.obj _ => true | _ => false)
  else if t = "array" then (match j with | Json.arr _ => true | _ => false)
  else if t = "string" then (match j with | Json.str _ => true | _ => false)
  else if t = "number" then (match j with | Json.num _ => true | _ => false)
  else if t = "integer" then (match j with | Json.num q => q.den = 1 | _ => false)
  else if t = "boolean" then (match j with | Json.bool _ => true | _ => false)
  else if t = "null" then (match j with | Json.null => true | _ => false)
  else false

/-- The fragment of `jsonschema.validate` exercised by the schemas of
this repository: the `type` (single name or list), `required`,
`properties` and `items` keywords, each applicable only to instances
of the matching container shape.  The fuel bounds the recursion depth;
it is instantiated with `sizeOf schema`, which dominates the schema's
nesting depth since every recursive call descends into a strict
subterm of the schema. -/
def validateFuel : Nat → Json → Json → Bool
  | 0, _, _ => false
  | fuel + 1, schema, inst =>
    let typeOK :=
      match schema.lookupKey "type" with
      | some (Json.str t) => typeMatches t inst
      | some (Json.arr ts) =>
        ts.any (fun tj => match tj with | Json.str t => typeMatches t inst | _ => false)
      | _ => true
    let requiredOK :=
      match schema.lookupKey "required", inst with
      | some (Json.arr names), Json.obj kvs =>
        names.all (fun nj => match nj with
          | Json.str n => (kvs.lookup n).isSome
          | _ => true)
      | _, _ => true
    let propsOK :=
      match schema.lookupKey "properties", inst with
      | some (Json.obj props), Json.obj kvs =>
        props.all (fun kv => match kvs.lookup kv.1 with
          | some v => validateFuel fuel kv.2 v
          | none => true)
      | _, _ => true
    let itemsOK :=
      match schema.lookupKey "items", inst with
      | some sub, Json.arr els => els.all (fun el => validateFuel fuel sub el)
      | _, _ => true
    typeOK && requiredOK && propsOK && itemsOK

/-- Recursion-depth bound for `validateFuel`.  The recursion of
`jsonschema.validate` descends one schema level per step, so any bound
at least the schema's nesting depth is exact; the deepest schema in
this repository (`bank_statement`) has depth 4. -/
def validateFuelBound : Nat := 32

/-- `jsonschema.validate(instance, schema)` as a boolean (true =
no `ValidationError` raised). -/
def jsonschema_validate (schema inst : Json) : Bool :=
  validateFuel validateFuelBound schema inst

/-- The repeated FieldValue leaf subschema of `DEFAULT_SCHEMAS`:
`{"type": ["object", "null"], "properties": {value, position,
confidence, review_required}}`, with the per-field `value` types and
optional `description`. -/
def fieldValueSchema (valueTypes : List String) (desc : Option String) : Json :=
  Json.obj [
    ("type", Json.arr [Json.str "object", Json.str "null"]),
    ("properties", Json.obj [
      ("value", Json.obj (("type", Json.arr (valueTypes.map Json.str)) ::
        (match desc with
          | some d => [("description", Json.str d)]
          | none => []))),
      ("position", Json.obj [("type", Json.str "array"),
        ("items", Json.obj [("type", Json.str "number")])]),
      ("confidence", Json.obj [("type", Json.str "number")]),
      ("review_required", Json.obj [("type", Json.str "boolean")])])]

/-- `DEFAULT_SCHEMAS["bank_statement"]` from `models/schemas.py`. -/
def bank_statement_schema : Json :=
  Json.obj [
    ("type", Json.str "object"),
    ("properties", Json.obj [
      ("basic_information", Json.obj [
        ("type", Json.arr [Json.str "object", Json.str "null"]),
        ("properties", Json.obj [
          ("bank_name", fieldValueSchema ["string", "null"] none),
          ("account_name", fieldValueSchema ["string", "null"] none),
          ("account_number", fieldValueSchema ["string", "null"] none),
          ("ifsc_code", fieldValueSchema ["string", "null"] none),
          ("start_date", fieldValueSchema ["string", "null"] (some "YYYY-MM-DD format")),
          ("end_date", fieldValueSchema ["string", "null"] (some "YYYY-MM-DD format")),
          ("account_address", fieldValueSchema ["string", "null"] none),
          ("opening_balance", fieldValueSchema ["number", "null"] none),
          ("closing_balance", fieldValueSchema ["number", "null"] none)])]),
      ("transactions", Json.obj [
        ("type", Json.arr [Json.str "array", Json.str "null"]),
        ("items", Json.obj [
          ("type", Json.str "object"),
          ("properties", Json.obj [
            ("date", fieldValueSchema ["string", "null"] (some "YYYY-MM-DD format")),
            ("description", fieldValueSchema ["string", "null"] none),
            ("debit", fieldValueSchema ["number", "null"]
              (some "Withdrawal amount. Use null if it is a deposit.")),
            ("credit", fieldValueSchema ["number", "null"]
              (some "Deposit amount. Use null if it is a withdrawal.")),
            ("balance", fieldValueSchema ["number", "null"] none),
            ("category", fieldValueSchema ["string", "null"]
              (some "Categorize: e.g., \x27Salary\x27, \x27Transfer\x27, \x27Interest\x27, etc.")),
            ("merchant_name", fieldValueSchema ["string", "null"]
              (some "The merchant or person\x27s name."))])])])]),
    ("required", Json.arr [Json.str "basic_information", Json.str "transactions"])]

/-- Transaction leaf field names of the bank-statement schema. -/
def txnFieldNames : List String :=
  ["date", "description", "debit", "credit", "balance", "category", "merchant_name"]

/-- A minimal parsed response whose single transaction carries `field`
with value `v`. -/
def mkTxnInstance (field : String) (v : Json) : Json :=
  Json.obj [("basic_information", Json.null),
    ("transactions", Json.arr [Json.obj [(field, v)]])]

/-- A well-formed four-key FieldValue object for a numeric field. -/
def fieldValue29293 : Json :=
  Json.obj [("value", Json.num 29293), ("position", Json.arr []),
    ("confidence", Json.num 1), ("review_required", Json.bool false)]

/-! ## The pydantic `FieldValue` model (`models/schemas.py`) -/

/-- The typed FieldValue container: `value: Optional[Any] = None`,
`position: Optional[List[float]] = []`, `confidence: Optional[float]
= 1.0`, `review_required: Optional[bool] = False`. -/
structure FieldValue where
  value : Json
  position : Option (List Rat)
  confidence : Option Rat
  review_required : Option Bool

/-- Deserialize an `Optional[List[float]]` field. -/
def parsePosition : Json → Except String (Option (List Rat))
  | Json.null => Except.ok none
  | Json.arr xs =>
    (xs.mapM (fun x => match x with
      | Json.num q => Except.ok q
      | _ => Except.error "value is not a valid float")).map some
  | _ => Except.error "value is not a valid list"

/-- Deserialize an `Optional[float]` field. -/
def parseConfidence : Json → Except String (Option Rat)
  | Json.null => Except.ok none
  | Json.num q => Except.ok (some q)
  | _ => Except.error "value is not a valid float"

/-- Deserialize an `Optional[bool]` field. -/
def parseReviewRequired : Json → Except String (Option Bool)
  | Json.null => Except.ok none
  | Json.bool b => Except.ok (some b)
  | _ => Except.error "value is not a valid boolean"

/-- The `value` component: any JSON, defaulting to `None`. -/
def fvValue (kvs : List (String × Json)) : Json :=
  (kvs.lookup "value").getD Json.null

/-- The `position` component, defaulting to `[]` when absent. -/
def fvPosition (kvs : List (String × Json)) : Except String (Option (List Rat)) :=
  match kvs.lookup "position" with
  | some v => parsePosition v
  | none => Except.ok (some [])

/-- The `confidence` component, defaulting to `1.0` when absent. -/
def fvConfidence (kvs : List (String × Json)) : Except String (Option Rat) :=
  match kvs.lookup "confidence" with
  | some v => parseConfidence v
  | none => Except.ok (some 1)

/-- The `review_required` component, defaulting to `False` when
absent. -/
def fvReviewRequired (kvs : List (String × Json)) : Except String (Option Bool) :=
  match kvs.lookup "review_required" with
  | some v => parseReviewRequired v
  | none => Except.ok (some false)

/-- pydantic deserialization of a JSON object into `FieldValue`:
each of the four keys is read independently, absent keys take the
declared default, and extra keys are ignored. -/
def FieldValue.parse_obj (kvs : List (String × Json)) : Except String FieldValue :=
  match fvPosition kvs, fvConfidence kvs, fvReviewRequired kvs with
  | Except.ok p, Except.ok c, Except.ok r => Except.ok ⟨fvValue kvs, p, c, r⟩
  | Except.error e, _, _ => Except.error e
  | Except.ok _, Except.error e, _ => Except.error e
  | Except.ok _, Except.ok _, Except.error e => Except.error e

/-! ## Prompt construction (`HybridGeminiService._create_hybrid_prompt`,
`_format_coordinate_info`, `_get_system_prompt`) -/

/-- Python `f"{n:03d}"`: decimal, zero-padded to width 3. -/
def pyPad3 (n : Nat) : String :=
  let s := toString n
  if s.length < 3 then String.mk (List.replicate (3 - s.length) '0') ++ s else s

/-- Round `num/den` (with `den > 0`) half to even, in integer
arithmetic — the rounding used by Python float formatting. -/
def roundHalfEvenFrac (num den : Int) : Int :=
  let fl := Int.fdiv num den
  let rem := num - fl * den
  if 2 * rem < den then fl
  else if 2 * rem > den then fl + 1
  else if fl % 2 = 0 then fl else fl + 1

/-- Python `f"{q:.0f}"` on a non-negative value: round half to even
and print the integer.  (Python additionally prints `-0` for negative
values rounding to zero; coordinates here are non-negative.) -/
def formatF0 (q : Rat) : String :=
  toString (roundHalfEvenFrac q.num (q.den : Int))

/-- Two-digit zero-padded fragment for `formatF2`. -/
def pyPad2 (m : Nat) : String :=
  if m < 10 then "0" ++ toString m else toString m

/-- Python `f"{q:.2f}"` (non-negative rounding caveat as for
`formatF0`). -/
def formatF2 (q : Rat) : String :=
  let n := roundHalfEvenFrac (q.num * 100) (q.den : Int)
  let sign := if n < 0 then "-" else ""
  let a := n.natAbs
  sign ++ toString (a / 100) ++ "." ++ pyPad2 (a % 100)

/-- One line of the coordinate reference:
`[{i+1:03d}] "{text}" -> Page {page}, Box [x0, y0, x1, y1],
Confidence: {confidence:.2f}`. -/
def coordLine (i : Nat) (e : CoordElement) : String :=
  "[" ++ pyPad3 (i + 1) ++ "] \"" ++ e.text ++ "\" -> Page " ++ toString e.page ++
    ", Box [" ++ formatF0 e.bbox.x0 ++ ", " ++ formatF0 e.bbox.y0 ++ ", " ++
    formatF0 e.bbox.x1 ++ ", " ++ formatF0 e.bbox.y1 ++ "], Confidence: " ++
    formatF2 e.confidence

/-- The per-element lines of `_format_coordinate_info`, one for every
entry of `text_with_coordinates` in listing order. -/
def coordLines (ocr : OcrData) : List String :=
  ocr.text_with_coordinates.enum.map (fun ie => coordLine ie.1 ie.2)

/-- Embedding of `HybridGeminiService._format_coordinate_info`. -/
def format_coordinate_info (ocr : OcrData) : String :=
  String.intercalate "\n" (coordLines ocr)

/-- Embedding of `HybridGeminiService._get_system_prompt`: fixed
mapping with fallback to the default instruction. -/
def hybrid_system_prompt (document_type : String) : String :=
  let instruction :=
    if document_type = "bank_statement" then
      "You are an expert at extracting information from bank statements with precise coordinate mapping. You have access to both the visual PDF and EasyOCR coordinate data. Focus on account details, all transactions, balances, and summary information. Extract EVERY transaction with accurate amounts, dates, and coordinates."
    else if document_type = "invoice" then
      "You are an expert at extracting information from invoices with precise coordinate mapping. You have access to both the visual PDF and EasyOCR coordinate data. Focus on invoice number, vendor/billing info, all line items, subtotals, taxes, and totals. Extract EVERY line item with coordinates."
    else if document_type = "receipt" then
      "You are an expert at extracting information from receipts with precise coordinate mapping. You have access to both the visual PDF and EasyOCR coordinate data. Focus on vendor details, transaction date/time, all purchased items, and financial totals. Extract EVERY item with coordinates."
    else
      "You are an expert document analysis AI with access to both visual PDF content and precise EasyOCR coordinate data. Extract all relevant information according to the provided schema with accurate coordinate mapping."
  "HYBRID PDF + EASYOCR ANALYSIS:\n\n" ++ instruction

/-- Hex digit for `\uXXXX` escapes in the serializer. -/
def hexDigitChar (n : Nat) : Char :=
  if n < 10 then Char.ofNat ('0'.toNat + n) else Char.ofNat ('a'.toNat + n - 10)

/-- Four-digit hex rendering for `\uXXXX` escapes. -/
def hex4 (n : Nat) : String :=
  String.mk [hexDigitChar (n / 4096 % 16), hexDigitChar (n / 256 % 16),
    hexDigitChar (n / 16 % 16), hexDigitChar (n % 16)]

/-- JSON string escaping as done by `json.dumps` with the default
`ensure_ascii=True`. -/
def jsonEscapeChar (c : Char) : String :=
  if c = '"' then "\\\""
  else if c = '\\' then "\\\\"
  else if c = '\n' then "\\n"
  else if c = '\t' then "\\t"
  else if c = '\r' then "\\r"
  else if c.toNat = 8 then "\\b"
  else if c.toNat = 12 then "\\f"
  else if c.toNat < 32 ∨ c.toNat > 127 then "\\u" ++ hex4 c.toNat
  else String.singleton c

/-- Escape a whole string for JSON serialization. -/
def jsonEscape (s : String) : String :=
  s.data.foldl (fun acc c => acc ++ jsonEscapeChar c) ""

/-- Indentation for `json.dumps(..., indent=2)`. -/
def indentStr (level : Nat) : String :=
  String.mk (List.replicate (2 * level) ' ')

/-- Recursion-depth bound for the serializer (same role as
`validateFuelBound`). -/
def dumpsFuelBound : Nat := 32

/-- `json.dumps(j, indent=2)` at nesting `level`.  Numbers render in
integer form when integral; the schemas serialized in this repository
contain no numeric literals. -/
def dumpsFuel : Nat → Nat → Json → String
  | 0, _, _ => ""
  | fuel + 1, level, j =>
    match j with
    | Json.null => "null"
    | Json.bool true => "true"
    | Json.bool false => "false"
    | Json.num q =>
      if q.den = 1 then toString q.num
      else toString q.num ++ "/" ++ toString q.den
    | Json.str s => "\"" ++ jsonEscape s ++ "\""
    | Json.arr [] => "[]"
    | Json.arr xs =>
      "[\n" ++ String.intercalate ",\n"
          (xs.map (fun x => indentStr (level + 1) ++ dumpsFuel fuel (level + 1) x)) ++
        "\n" ++ indentStr level ++ "]"
    | Json.obj [] => "\x7b\x7d"
    | Json.obj ms =>
      "\x7b\n" ++ String.intercalate ",\n"
          (ms.map (fun kv => indentStr (level + 1) ++ "\"" ++ jsonEscape kv.1 ++ "\": " ++
            dumpsFuel fuel (level + 1) kv.2)) ++
        "\n" ++ indentStr level ++ "\x7d"

/-- `json.dumps(schema, indent=2)`. -/
def json_dumps (j : Json) : String :=
  dumpsFuel dumpsFuelBound 0 j

/-- Text of the hybrid prompt before the first interpolated total. -/
def promptP1 (document_type : String) : String :=
  "\n" ++ hybrid_system_prompt document_type ++
    "\n\nHYBRID PROCESSING WITH COMPLETE COORDINATE COVERAGE:\nYou have access to both the visual PDF document and "

/-- Text between the two interpolated totals of the overview line. -/
def promptP2 : String :=
  " precise coordinate references from EasyOCR across "

/-- Text from the overview line to the coordinate listing (the
remaining interpolations of the totals are local to this chunk). -/
def promptP3 (tc tp : Nat) : String :=
  " pages.\n\nCRITICAL PROCESSING INSTRUCTIONS:\n1. **PROCESS ALL " ++ toString tc ++
    " COORDINATES**: Every coordinate reference below must be considered and processed\n2. **COMPLETE DOCUMENT EXTRACTION**: Extract ALL transactions, amounts, dates from ALL pages (1-" ++
    toString tp ++
    ")\n3. **NO DATA LEFT BEHIND**: Ensure comprehensive extraction across the entire document\n4. **EXHAUSTIVE TRANSACTION EXTRACTION**: Extract EVERY single transaction from ALL pages, not just the first few\n\nOCR COORDINATE INTELLIGENCE:\n5. **OCR Splitting Behavior**: The coordinates come from image-based asymmetric OCR that may split single phrases:\n   - Single phrase \"PRAKASH MAHENDRA SHUKLA\" might appear as 3 separate coordinates\n   - Amount \"29,293.00\" might be split as \"29,\" and \"293.00\"\n   - Transaction descriptions may be fragmented across multiple coordinates\n   - Dates like \"15-05-2024\" might be split into parts\n\n6. **SMART MERGING REQUIRED**: When extracting values, intelligently merge related coordinate elements:\n   - Combine horizontally adjacent text on same line (similar Y coordinates ±10 pixels)\n   - Merge logically related fragments (names, amounts, descriptions)\n   - Use combined bounding box: [leftmost_x, topmost_y, rightmost_x, bottommost_y]\n   - For split amounts: \"29,\" + \"293.00\" = 29293.00 with merged coordinates\n\nEASYOCR COORDINATE REFERENCE (" ++
    toString tc ++ " elements across " ++ toString tp ++ " pages):\n"

/-- The hybrid prompt up to (and excluding) the coordinate listing. -/
def create_hybrid_prompt_prefix (ocr : OcrData) (document_type : String) : String :=
  promptP1 document_type ++ toString ocr.text_with_coordinates.length ++ promptP2 ++
    toString ocr.document_info.total_pages ++
    promptP3 ocr.text_with_coordinates.length ocr.document_info.total_pages

/-- The hybrid prompt after the coordinate listing. -/
def create_hybrid_prompt_suffix (schema : Json) (tp : Nat) : String :=
  "\n\nEXTRACTION TASK:\nExtract structured information according to this JSON schema:\n\n" ++
    json_dumps schema ++
    "\n\nMANDATORY OBJECT FORMAT - EVERY FIELD MUST FOLLOW THIS EXACT FORMAT:\nEach field must be an object with: value, position, confidence, review_required\n\nCOORDINATE MERGING EXAMPLES:\n- If you find \"29,\" at [1397, 1283, 1420, 1319] and \"293.00\" at [1425, 1283, 1531, 1319]\n  -> Merge to: \"value\": 29293.0, \"position\": [1397, 1283, 1531, 1319]\n- If you find \"PRAKASH\" at [58, 218, 150, 250] and \"MAHENDRA\" at [155, 218, 280, 250] and \"SHUKLA\" at [285, 218, 380, 250]\n  -> Merge to: \"value\": \"PRAKASH MAHENDRA SHUKLA\", \"position\": [58, 218, 380, 250]\n\nPROCESSING VERIFICATION CHECKLIST:\n- ✓ Verify you\x27ve processed coordinates from ALL pages (1-" ++
    toString tp ++
    ")\n- ✓ Ensure ALL transactions are extracted, not just the first few\n- ✓ Double-check that later pages (3, 4, 5) are fully processed\n- ✓ Confirm transaction count matches what\x27s visible in the document\n- ✓ Validate that coordinate merging was applied for split text\n\nEXAMPLES OF CORRECT FORMAT:\n- String field: \"account_name\": \x7b\"value\": \"PRAKASH MAHENDRA SHUKLA\", \"position\": [58, 218, 380, 250], \"confidence\": 1.0, \"review_required\": false\x7d\n- Number field: \"credit\": \x7b\"value\": 29293.0, \"position\": [1397, 1283, 1531, 1319], \"confidence\": 1.0, \"review_required\": false\x7d\n- Empty field: \"debit\": \x7b\"value\": null, \"position\": [], \"confidence\": 1.0, \"review_required\": false\x7d\n\nNEVER return direct values like \"balance\": 29293.0 - this is WRONG!\nALWAYS return object format like \"balance\": \x7b\"value\": 29293.0, \"position\": [coordinates], \"confidence\": 1.0, \"review_required\": false\x7d\n\nReturn only valid JSON matching the schema with merged coordinates included.\n"

/-- Embedding of `HybridGeminiService._create_hybrid_prompt`. -/
def create_hybrid_prompt (ocr : OcrData) (schema : Json) (document_type : String) : String :=
  create_hybrid_prompt_prefix ocr document_type ++ format_coordinate_info ocr ++
    create_hybrid_prompt_suffix schema ocr.document_info.total_pages

/-! ## The hybrid pipeline (`HybridGeminiService.process_document_hybrid`) -/

/-- A raised Python exception: either a `fastapi.HTTPException` or a
generic exception with its message. -/
inductive PyErr where
  | http (status : Nat) (detail : String)
  | exc (msg : String)
deriving DecidableEq

/-- The `HTTPException` escaping a service call or endpoint. -/
structure HTTPExceptionModel where
  status_code : Nat
  detail : String
deriving DecidableEq

/-- Outcomes of the external collaborators used by
`process_document_hybrid`: the rasterizer+OCR engine (pages), the
Gemini file upload, and the model generation call. -/
structure HybridEnv where
  configured : Bool
  pages : Except PyErr (List PageImage)
  upload : Except PyErr String
  generate : Except PyErr String

/-- `ocr_stats` of the hybrid result. -/
structure OcrStats where
  total_text_elements : Nat
  pages : Nat
deriving DecidableEq

/-- The success dictionary returned by `process_document_hybrid`. -/
structure HybridResult where
  structured_data : Json
  confidence : Rat
  processing_notes : String
  pages_processed : Nat
  model_used : String
  ocr_stats : OcrStats
  approach : String

/-- Exceptions distinguishable by the `except` clauses of
`process_document_hybrid`. -/
inductive BodyErr where
  | jsonDecode (e : JSONDecodeError)
  | validation
  | pyErr (e : PyErr)

/-- The `finally` block: remove the temp file when it was created and
still exists. -/
def cleanupTemp (created exists_now : Bool) : Bool :=
  if created ∧ exists_now then false else exists_now

/-- Result of one hybrid invocation together with the fate of its
temporary upload file. -/
structure HybridOutcome where
  result : Except HTTPExceptionModel HybridResult
  tempCreated : Bool
  tempRemaining : Bool

/-- The `try` block of `process_document_hybrid`: OCR extraction, temp
file creation + upload, generation, emptiness check, JSON extraction,
schema validation.  Returns the body's outcome paired with whether the
temporary file was created (it is created only after OCR succeeded). -/
def hybridBody (env : HybridEnv) (schema : Json) (model_name : String) :
    Except BodyErr HybridResult × Bool :=
  match env.pages with
  | Except.error e => (Except.error (BodyErr.pyErr e), false)
  | Except.ok pages =>
    let ocr_data := process_pdf_for_llm pages
    match env.upload with
    | Except.error e => (Except.error (BodyErr.pyErr e), true)
    | Except.ok _uploaded =>
      match env.generate with
      | Except.error e => (Except.error (BodyErr.pyErr e), true)
      | Except.ok response_text =>
        if response_text = "" then
          (Except.error (BodyErr.pyErr (PyErr.http 500 "Gemini returned an empty response")), true)
        else
          match extract_json_from_response response_text with
          | Except.error e => (Except.error (BodyErr.jsonDecode e), true)
          | Except.ok result =>
            if jsonschema_validate schema result then
              (Except.ok
                { structured_data := result
                  confidence := mkRat 95 100
                  processing_notes := "Processed with hybrid PDF + EasyOCR approach using " ++
                    model_name ++ ". Coordinates provided directly by Gemini."
                  pages_processed := ocr_data.document_info.total_pages
                  model_used := model_name
                  ocr_stats := { total_text_elements := ocr_data.document_info.total_text_elements
                                 pages := ocr_data.document_info.total_pages }
                  approach := "hybrid_pdf_easyocr" }, true)
            else (Except.error BodyErr.validation, true)

/-- The `except` clauses of `process_document_hybrid`.  A raised
`HTTPException` inside the `try` (e.g. the empty-response raise) has no
dedicated clause, so it is caught by the generic `except Exception`
handler and re-wrapped as `Processing error: ...`. -/
def hybridExcept (e : BodyErr) : HTTPExceptionModel :=
  match e with
  | BodyErr.jsonDecode je => ⟨500, "Invalid JSON response from Gemini: " ++ je.msg⟩
  | BodyErr.validation => ⟨500, "Schema validation failed"⟩
  | BodyErr.pyErr (PyErr.http _ d) => ⟨500, "Processing error: " ++ d⟩
  | BodyErr.pyErr (PyErr.exc m) => ⟨500, "Processing error: " ++ m⟩

/-- Embedding of `HybridGeminiService.process_document_hybrid`:
configuration check, the `try` body, the `except` mapping, and the
unconditional `finally` cleanup of the temporary file. -/
def process_document_hybrid (env : HybridEnv) (schema : Json) (model_name : String) :
    HybridOutcome :=
  if ¬ env.configured then
    { result := Except.error ⟨500, "Gemini API key not configured"⟩
      tempCreated := false
      tempRemaining := false }
  else
    let body := hybridBody env schema model_name
    let mapped : Except HTTPExceptionModel HybridResult :=
      match body.1 with
      | Except.ok r => Except.ok r
      | Except.error e => Except.error (hybridExcept e)
    { result := mapped
      tempCreated := body.2
      tempRemaining := cleanupTemp body.2 body.2 }

/-! ## The `/ocr/process` endpoint (`main.py::process_document`) -/

/-- Python truthiness of a JSON value (empty containers, `0`, `""`,
`False` and `None` are falsy). -/
def Json.pyTruthy : Json → Bool
  | Json.null => false
  | Json.bool b => b
  | Json.num q => decide (q ≠ 0)
  | Json.str s => decide (s ≠ "")
  | Json.arr [] => false
  | Json.arr (_ :: _) => true
  | Json.obj [] => false
  | Json.obj (_ :: _) => true

/-- Python `str.lower()` (ASCII range, which covers the keyword
checks it is used for). -/
def pyLower (s : String) : String :=
  String.mk (s.data.map Char.toLower)

/-- Python `str.endswith(suffix)`. -/
def pyEndsWith (s suffix : String) : Bool :=
  decide (suffix.data.length ≤ s.data.length) &&
    s.data.drop (s.data.length - suffix.data.length) == suffix.data

/-- Python `str.startswith(prefix)`. -/
def pyStartsWith (s pre : String) : Bool :=
  s.data.take pre.data.length == pre.data

/-- Python `needle in hay` on strings. -/
def pyIn (needle hay : String) : Bool :=
  (List.range (hay.data.length + 1)).any
    (fun i => (hay.data.drop i).take needle.data.length == needle.data)

/-- The response model `OCRResponse` of `models/schemas.py` (the
`data` payload kept as JSON). -/
structure OCRResponse where
  status : String
  data : Option Json
  schema_used : Option String
  confidence_score : Option Rat
  processing_time_ms : Nat
  pages_processed : Nat
  error : Option String

/-- The request form fields of `/ocr/process` (the file reduced to its
name and byte length; its bytes only flow into the opaque service
outcomes). -/
structure Request where
  filename : String
  content_length : Nat
  model_name : String
  document_type : String
  custom_schema : Option String
  extract_tables : Bool

/-- Result dictionary of `GeminiService.process_document_with_schema`. -/
structure GemResult where
  structured_data : Json
  confidence : Rat
  pages_processed : Nat

/-- Result dictionary of `MistralOCRService.extract_text_and_tables`. -/
structure MistralOcrResult where
  text : String
  tables : List Json
  pages_processed : Nat
  confidence : Rat

/-- Result dictionary of `MistralLLMService.extract_structured_data`. -/
structure LlmResult where
  structured_data : Json

/-- Outcomes of the services called by the endpoint, plus the measured
processing time. -/
structure ServiceEnv where
  gemini_available : Bool
  gemini : Except PyErr GemResult
  ocr : Except PyErr MistralOcrResult
  llm : Except PyErr LlmResult
  elapsed_ms : Nat

/-- `DEFAULT_SCHEMAS` of `models/schemas.py`: only the bank-statement
schema is defined (the dict ends with a `# ... other schemas ...`
comment). -/
def DEFAULT_SCHEMAS : List (String × Json) :=
  [("bank_statement", bank_statement_schema)]

/-- The uniform error envelope produced by the generic exception
handler of the endpoint. -/
def error_envelope (elapsed_ms : Nat) (m : String) : OCRResponse :=
  { status := "error"
    data := none
    schema_used := none
    confidence_score := none
    processing_time_ms := elapsed_ms
    pages_processed := 0
    error := some m }

/-- The raw-text response returned when no structured extraction took
place on the Mistral path. -/
def raw_envelope (elapsed_ms : Nat) (ocr_result : MistralOcrResult) : OCRResponse :=
  { status := "success"
    data := some (Json.obj [("extracted_text", Json.str ocr_result.text),
      ("tables", match ocr_result.tables with
        | [] => Json.null
        | ts => Json.arr ts)])
    schema_used := some "raw"
    confidence_score := some ocr_result.confidence
    processing_time_ms := elapsed_ms
    pages_processed := ocr_result.pages_processed
    error := none }

/-- Schema selection shared by both endpoint paths: a parsed custom
schema, a `DEFAULT_SCHEMAS` entry, or the path-specific `auto`
handling supplied by `autoSel`. -/
def selectSchema (req : Request) (autoSel : Except PyErr (Option (String × Json))) :
    Except PyErr (Option (String × Json)) :=
  if req.document_type = "custom" ∧ (req.custom_schema.getD "") ≠ "" then
    match json_loads (req.custom_schema.getD "") with
    | Except.ok s => Except.ok (some ("custom", s))
    | Except.error _ => Except.error (PyErr.http 400 "Invalid custom schema JSON")
  else if (DEFAULT_SCHEMAS.lookup req.document_type).isSome then
    Except.ok (some (req.document_type,
      (DEFAULT_SCHEMAS.lookup req.document_type).getD Json.null))
  else if req.document_type = "auto" then autoSel
  else Except.ok none

/-- The `try` block of the `/ocr/process` endpoint. -/
def process_body (req : Request) (env : ServiceEnv) : Except PyErr OCRResponse :=
  if req.filename = "" ∨ pyEndsWith (pyLower req.filename) ".pdf" = false then
    Except.error (PyErr.http 400 "Only PDF files are supported")
  else if req.content_length > 50 * 1024 * 1024 then
    Except.error (PyErr.http 400 "File too large. Maximum size: 50MB")
  else if pyStartsWith req.model_name "gemini" then
    if ¬ env.gemini_available then
      Except.error (PyErr.http 500 "Gemini API key not configured")
    else
      match selectSchema req (Except.ok (some ("auto", bank_statement_schema))) with
      | Except.error e => Except.error e
      | Except.ok none => Except.error (PyErr.http 400 "Schema is required for Gemini processing")
      | Except.ok (some (schema_used, _target)) =>
        match env.gemini with
        | Except.error e => Except.error e
        | Except.ok g =>
          Except.ok
            { status := "success"
              data := some g.structured_data
              schema_used := some schema_used
              confidence_score := some g.confidence
              processing_time_ms := env.elapsed_ms
              pages_processed := g.pages_processed
              error := none }
  else
    match env.ocr with
    | Except.error e => Except.error e
    | Except.ok ocr_result =>
      -- `auto` detection by keywords; note DEFAULT_SCHEMAS defines no
      -- "invoice"/"receipt" entry, so those branches raise KeyError
      let autoSel : Except PyErr (Option (String × Json)) :=
        if pyIn "account" (pyLower ocr_result.text) ∧ pyIn "statement" (pyLower ocr_result.text) then
          Except.ok (some ("bank_statement", bank_statement_schema))
        else if pyIn "invoice" (pyLower ocr_result.text) then
          Except.error (PyErr.exc "KeyError: invoice")
        else if pyIn "receipt" (pyLower ocr_result.text) then
          Except.error (PyErr.exc "KeyError: receipt")
        else Except.ok none
      match selectSchema req autoSel with
      | Except.error e => Except.error e
      | Except.ok (some (schema_used, _target)) =>
        match env.llm with
        | Except.error e => Except.error e
        | Except.ok llm =>
          if llm.structured_data.pyTruthy then
            Except.ok
              { status := "success"
                data := some llm.structured_data
                schema_used := some schema_used
                confidence_score := some ocr_result.confidence
                processing_time_ms := env.elapsed_ms
                pages_processed := ocr_result.pages_processed
                error := none }
          else raw_envelope env.elapsed_ms ocr_result |> Except.ok
      | Except.ok none => raw_envelope env.elapsed_ms ocr_result |> Except.ok

/-- Embedding of the `/ocr/process` endpoint: the `try` body, then
`except HTTPException: raise` (the exception escapes to the transport
layer) and `except Exception` (converted to the uniform error
envelope). -/
def process_document (req : Request) (env : ServiceEnv) :
    Except HTTPExceptionModel OCRResponse :=
  match process_body req env with
  | Except.ok r => Except.ok r
  | Except.error (PyErr.http s d) => Except.error ⟨s, d⟩
  | Except.error (PyErr.exc m) => Except.ok (error_envelope env.elapsed_ms m)

/-! ## Theorems -/

theorem braceNet_nil : braceNet [] = 0 := rfl

theorem braceNet_cons (c : Char) (cs : List Char) :
    braceNet (c :: cs) = braceDelta c + braceNet cs := by
  simp [braceNet]

/-- If no non-empty prefix of `cs` brings the depth back to zero, the
scan loop runs off the end of the text with the accumulated depth. -/
theorem braceScan_eq_none (cs : List Char) : ∀ (count : Int) (i : Nat), 1 ≤ count →
    (∀ m, 1 ≤ m → m ≤ cs.length → count + braceNet (cs.take m) ≠ 0) →
    braceScan count i cs = (count + braceNet cs, none) := by
  induction cs with
  | nil => intro count i _ _; simp [braceScan, braceNet_nil]
  | cons c rest ih =>
    intro count i hc hz
    have hz' : ∀ m, 1 ≤ m → m ≤ rest.length →
        (count + braceDelta c) + braceNet (rest.take m) ≠ 0 := by
      intro m hm hlen
      have := hz (m + 1) (by omega) (by simp; omega)
      rw [List.take_succ_cons, braceNet_cons] at this
      intro hcontra; exact this (by omega)
    by_cases h1 : c = '{'
    · subst h1
      have hd : braceDelta '{' = (1 : Int) := rfl
      rw [show braceScan count i ('{' :: rest) = braceScan (count + 1) (i + 1) rest from by
        simp [braceScan]]
      rw [ih (count + 1) (i + 1) (by omega) (by rw [hd] at hz'; exact hz')]
      rw [braceNet_cons, hd]
      congr 1
      omega
    · by_cases h2 : c = '}'
      · subst h2
        have hd : braceDelta '}' = (-1 : Int) := rfl
        have hm1 := hz 1 le_rfl (by simp)
        rw [List.take_succ_cons, List.take_zero, braceNet_cons, braceNet_nil, hd] at hm1
        have hcne : ¬ (count - 1 = 0) := by omega
        rw [show braceScan count i ('}' :: rest) = braceScan (count - 1) (i + 1) rest from by
          simp [braceScan, hcne]]
        rw [ih (count - 1) (i + 1) (by omega)
          (by rw [hd] at hz'; intro m hm hlen; have := hz' m hm hlen; intro hco; exact this (by omega))]
        rw [braceNet_cons, hd]
        congr 1
        omega
      · have hd : braceDelta c = (0 : Int) := by simp [braceDelta, h1, h2]
        rw [show braceScan count i (c :: rest) = braceScan count (i + 1) rest from by
          simp [braceScan, h1, h2]]
        rw [ih count (i + 1) hc
          (by rw [hd] at hz'; intro m hm hlen; have := hz' m hm hlen; intro hco; exact this (by omega))]
        rw [braceNet_cons, hd]
        congr 1
        omega

/-- If `m` is the minimal non-empty prefix length at which the depth
returns to zero, the scan loop stops exactly there and reports the
absolute end index `i + m` with final depth `0`. -/
theorem braceScan_eq_some (cs : List Char) : ∀ (count : Int) (i : Nat) (m : Nat),
    1 ≤ count → 1 ≤ m → m ≤ cs.length →
    count + braceNet (cs.take m) = 0 →
    (∀ m', 1 ≤ m' → m' < m → count + braceNet (cs.take m') ≠ 0) →
    braceScan count i cs = (0, some (i + m)) := by
  induction cs with
  | nil => intro count i m _ hm hlen _ _; simp at hlen; omega
  | cons c rest ih =>
    intro count i m hc hm hlen hz hmin
    have htake1 : braceNet ((c :: rest).take 1) = braceDelta c := by
      rw [List.take_succ_cons, List.take_zero, braceNet_cons, braceNet_nil]; omega
    by_cases h1 : c = '{'
    · subst h1
      have hd : braceDelta '{' = (1 : Int) := rfl
      have hm2 : 2 ≤ m := by
        by_contra hlt
        have hmeq : m = 1 := by omega
        subst hmeq
        rw [htake1, hd] at hz
        omega
      obtain ⟨m', rfl⟩ : ∃ m', m = m' + 1 := ⟨m - 1, by omega⟩
      rw [show braceScan count i ('{' :: rest) = braceScan (count + 1) (i + 1) rest from by
        simp [braceScan]]
      rw [List.take_succ_cons, braceNet_cons, hd] at hz
      rw [ih (count + 1) (i + 1) m' (by omega) (by omega) (by simp at hlen; omega)
        (by omega)
        (by
          intro k hk hkm
          have := hmin (k + 1) (by omega) (by omega)
          rw [List.take_succ_cons, braceNet_cons, hd] at this
          intro hco; exact this (by omega))]
      congr 2
      omega
    · by_cases h2 : c = '}'
      · subst h2
        have hd : braceDelta '}' = (-1 : Int) := rfl
        by_cases hone : count - 1 = 0
        · have hmeq : m = 1 := by
            by_contra hne
            have := hmin 1 le_rfl (by omega)
            rw [htake1, hd] at this
            exact this (by omega)
          subst hmeq
          rw [show braceScan count i ('}' :: rest) = (count - 1, some (i + 1)) from by
            simp [braceScan, hone]]
          rw [hone]
        · have hm2 : 2 ≤ m := by
            by_contra hlt
            have hmeq : m = 1 := by omega
            subst hmeq
            rw [htake1, hd] at hz
            omega
          obtain ⟨m', rfl⟩ : ∃ m', m = m' + 1 := ⟨m - 1, by omega⟩
          rw [show braceScan count i ('}' :: rest) = braceScan (count - 1) (i + 1) rest from by
            simp [braceScan, hone]]
          rw [List.take_succ_cons, braceNet_cons, hd] at hz
          rw [ih (count - 1) (i + 1) m' (by omega) (by omega) (by simp at hlen; omega)
            (by omega)
            (by
              intro k hk hkm
              have := hmin (k + 1) (by omega) (by omega)
              rw [List.take_succ_cons, braceNet_cons, hd] at this
              intro hco; exact this (by omega))]
          congr 2
          omega
      · have hd : braceDelta c = (0 : Int) := by simp [braceDelta, h1, h2]
        have hm2 : 2 ≤ m := by
          by_contra hlt
          have hmeq : m = 1 := by omega
          subst hmeq
          rw [htake1, hd] at hz
          omega
        obtain ⟨m', rfl⟩ : ∃ m', m = m' + 1 := ⟨m - 1, by omega⟩
        rw [show braceScan count i (c :: rest) = braceScan count (i + 1) rest from by
          simp [braceScan, h1, h2]]
        rw [List.take_succ_cons, braceNet_cons, hd] at hz
        rw [ih count (i + 1) m' (by omega) (by omega) (by simp at hlen; omega)
          (by omega)
          (by
            intro k hk hkm
            have := hmin (k + 1) (by omega) (by omega)
            rw [List.take_succ_cons, braceNet_cons, hd] at this
            intro hco; exact this (by omega))]
        congr 2
        omega

/-- Helper: a successful direct parse is returned unchanged. -/
theorem extract_json_direct (text : String) (j : Json)
    (h : json_loads text = Except.ok j) :
    extract_json_from_response text = Except.ok j := by
  simp [extract_json_from_response, h]

/-- Helper: direct parse failed and the stripped text holds no `{`. -/
theorem extract_json_no_brace (text : String) (e : JSONDecodeError)
    (h : json_loads text = Except.error e)
    (hidx : (pyStrip text.data).findIdx? (fun c => c = '{') = none) :
    extract_json_from_response text =
      Except.error ⟨"No JSON object found in response", 0⟩ := by
  simp [extract_json_from_response, h, hidx]

/-- Helper: with the first `{` at `start` and a minimal balanced prefix
of length `m` after it, the function parses exactly that substring. -/
theorem extract_json_balanced (text : String) (e : JSONDecodeError) (start m : Nat)
    (h : json_loads text = Except.error e)
    (hidx : (pyStrip text.data).findIdx? (fun c => c = '{') = some start)
    (hmb : IsMinBalanced ((pyStrip text.data).drop start) m) :
    extract_json_from_response text =
      json_loads (String.mk (((pyStrip text.data).drop start).take m)) := by
  obtain ⟨h1m, hlen, hnet, hmin⟩ := hmb
  have hget := List.findIdx?_eq_some_iff_getElem.mp hidx
  obtain ⟨hstart, hp, -⟩ := hget
  have hbrace : (pyStrip text.data)[start] = '{' := by
    have := hp
    simpa using this
  have hdrop : (pyStrip text.data).drop start =
      '{' :: (pyStrip text.data).drop (start + 1) :=
    hbrace ▸ List.drop_eq_getElem_cons hstart
  set rest := (pyStrip text.data).drop (start + 1) with hrest
  have hd : braceDelta '{' = (1 : Int) := rfl
  have hm2 : 2 ≤ m := by
    by_contra hlt
    have hmeq : m = 1 := by omega
    subst hmeq
    rw [hdrop, List.take_succ_cons, List.take_zero, braceNet_cons, braceNet_nil, hd] at hnet
    omega
  have hlen' : m - 1 ≤ rest.length := by
    rw [hdrop] at hlen
    simp at hlen
    omega
  have hnet' : (1 : Int) + braceNet (rest.take (m - 1)) = 0 := by
    obtain ⟨m', rfl⟩ : ∃ m', m = m' + 1 := ⟨m - 1, by omega⟩
    rw [hdrop, List.take_succ_cons, braceNet_cons, hd] at hnet
    simpa using hnet
  have hmin' : ∀ k, 1 ≤ k → k < m - 1 → (1 : Int) + braceNet (rest.take k) ≠ 0 := by
    intro k hk hkm
    have := hmin (k + 1) (by omega) (by omega)
    rw [hdrop, List.take_succ_cons, braceNet_cons, hd] at this
    intro hco; exact this (by omega)
  have hscan : braceScan 0 start ((pyStrip text.data).drop start) = (0, some (start + m)) := by
    rw [hdrop]
    rw [show braceScan 0 start ('{' :: rest) = braceScan 1 (start + 1) rest from by
      simp [braceScan]]
    rw [braceScan_eq_some rest 1 (start + 1) (m - 1) le_rfl (by omega) hlen' hnet' hmin']
    congr 2
    omega
  simp only [extract_json_from_response, h, hidx, hscan]
  simp

/-- Helper: with the first `{` at `start` but no balanced prefix after
it, the function reports unmatched braces. -/
theorem extract_json_unbalanced (text : String) (e : JSONDecodeError) (start : Nat)
    (h : json_loads text = Except.error e)
    (hidx : (pyStrip text.data).findIdx? (fun c => c = '{') = some start)
    (hnone : ∀ m, ¬ IsMinBalanced ((pyStrip text.data).drop start) m) :
    extract_json_from_response text =
      Except.error ⟨"Unmatched braces in JSON", start⟩ := by
  have hget := List.findIdx?_eq_some_iff_getElem.mp hidx
  obtain ⟨hstart, hp, -⟩ := hget
  have hbrace : (pyStrip text.data)[start] = '{' := by simpa using hp
  have hdrop : (pyStrip text.data).drop start =
      '{' :: (pyStrip text.data).drop (start + 1) :=
    hbrace ▸ List.drop_eq_getElem_cons hstart
  set rest := (pyStrip text.data).drop (start + 1) with hrest
  have hd : braceDelta '{' = (1 : Int) := rfl
  have hall : ∀ m, 1 ≤ m → m ≤ ((pyStrip text.data).drop start).length →
      braceNet (((pyStrip text.data).drop start).take m) ≠ 0 := by
    intro m h1 h2
    by_contra h0
    have hex : ∃ k, 1 ≤ k ∧ k ≤ ((pyStrip text.data).drop start).length ∧
        braceNet (((pyStrip text.data).drop start).take k) = 0 := ⟨m, h1, h2, h0⟩
    have hspec := Nat.find_spec hex
    refine hnone (Nat.find hex) ⟨hspec.1, hspec.2.1, hspec.2.2, ?_⟩
    intro m' hm1 hmlt hm0
    exact Nat.find_min hex hmlt ⟨hm1, by omega, hm0⟩
  have hz : ∀ k, 1 ≤ k → k ≤ rest.length →
      (1 : Int) + braceNet (rest.take k) ≠ 0 := by
    intro k hk hklen
    have := hall (k + 1) (by omega) (by rw [hdrop]; simp; omega)
    rw [hdrop, List.take_succ_cons, braceNet_cons, hd] at this
    intro hco; exact this (by omega)
  have hfin : (1 : Int) + braceNet rest ≠ 0 := by
    have := hall (rest.length + 1) (by omega) (by rw [hdrop]; simp)
    rw [hdrop, List.take_succ_cons, braceNet_cons, hd,
      List.take_of_length_le le_rfl] at this
    intro hco; exact this (by omega)
  have hscan : braceScan 0 start ((pyStrip text.data).drop start) =
      (1 + braceNet rest, none) := by
    rw [hdrop]
    rw [show braceScan 0 start ('{' :: rest) = braceScan 1 (start + 1) rest from by
      simp [braceScan]]
    exact braceScan_eq_none rest 1 (start + 1) le_rfl hz
  simp only [extract_json_from_response, h, hidx, hscan]
  simp [hfin]

/-- **C1**: response resolution first attempts a direct whole-string
JSON parse and returns its result on success; otherwise it scans from
the first `{` of the stripped text and returns the parse of the minimal
brace-depth-balanced enclosing object substring; if the text contains
no `{` it fails with the no-JSON-found error, and if no balanced
object exists it fails with the unmatched-braces decode error.  In
particular `"Here is data: {\"a\":1, \"b\":{\"c\":2}} thanks"` resolves
to exactly the object `{"a":1,"b":{"c":2}}`. -/
theorem C1_response_resolution :
    (∀ text j, json_loads text = Except.ok j →
      extract_json_from_response text = Except.ok j)
    ∧ (∀ text e, json_loads text = Except.error e →
      (pyStrip text.data).findIdx? (fun c => c = '{') = none →
      extract_json_from_response text =
        Except.error ⟨"No JSON object found in response", 0⟩)
    ∧ (∀ text e start, json_loads text = Except.error e →
      (pyStrip text.data).findIdx? (fun c => c = '{') = some start →
      (∀ m, IsMinBalanced ((pyStrip text.data).drop start) m →
        extract_json_from_response text =
          json_loads (String.mk (((pyStrip text.data).drop start).take m)))
      ∧ ((∀ m, ¬ IsMinBalanced ((pyStrip text.data).drop start) m) →
        extract_json_from_response text =
          Except.error ⟨"Unmatched braces in JSON", start⟩))
    ∧ extract_json_from_response "Here is data: \x7b\"a\":1, \"b\":\x7b\"c\":2\x7d\x7d thanks" =
        Except.ok (Json.obj [("a", Json.num 1), ("b", Json.obj [("c", Json.num 2)])]) := by
  refine ⟨extract_json_direct, extract_json_no_brace, ?_, by rfl⟩
  intro text e start h hidx
  exact ⟨fun m hmb => extract_json_balanced text e start m h hidx hmb,
    fun hnone => extract_json_unbalanced text e start h hidx hnone⟩

/-- Witness for C1: the hypotheses are satisfiable — a direct parse of
a pure JSON object string succeeds and is returned unchanged. -/
theorem C1_response_resolution_witness :
    extract_json_from_response "\x7b\"a\":1\x7d" =
      Except.ok (Json.obj [("a", Json.num 1)]) :=
  C1_response_resolution.1 "\x7b\"a\":1\x7d" (Json.obj [("a", Json.num 1)]) rfl

/-- Helper: characterization of the elements retained by one page of
`extract_from_pdf`. -/
theorem mem_pageExtract (page_num : Nat) (image : PageImage) (te : TextElement) :
    te ∈ (pageExtract page_num image).text_elements ↔
      ∃ item ∈ image.readtext,
        item.confidence > confidenceCutoff ∧ pyStripStr item.text ≠ "" ∧
        te = { text := pyStripStr item.text, bbox := quadBBox item.bbox,
               confidence := item.confidence, page := page_num + 1 } := by
  simp only [pageExtract, List.mem_filterMap]
  constructor
  · rintro ⟨item, hmem, hsome⟩
    by_cases hc : item.confidence > confidenceCutoff ∧ pyStripStr item.text ≠ ""
    · rw [if_pos hc] at hsome
      exact ⟨item, hmem, hc.1, hc.2, (Option.some_inj.mp hsome).symm⟩
    · rw [if_neg hc] at hsome
      exact absurd hsome (by simp)
  · rintro ⟨item, hmem, h1, h2, rfl⟩
    exact ⟨item, hmem, by rw [if_pos ⟨h1, h2⟩]⟩

/-- Helper: every retained element satisfies the filtering condition. -/
theorem pageExtract_invariant (page_num : Nat) (image : PageImage) (te : TextElement)
    (h : te ∈ (pageExtract page_num image).text_elements) :
    te.confidence > confidenceCutoff ∧ te.text ≠ "" := by
  obtain ⟨item, -, h1, h2, rfl⟩ := (mem_pageExtract page_num image te).mp h
  exact ⟨h1, h2⟩

/-- **C2**: a token is retained in the extractor's output iff its
confidence is strictly greater than 0.3 and its text is non-empty
after stripping; consequently every entry of the coordinate reference
(`text_with_coordinates`) has confidence above the cutoff and non-empty
text. -/
theorem C2_token_filtering :
    (∀ (page_num : Nat) (image : PageImage) (te : TextElement),
      te ∈ (pageExtract page_num image).text_elements ↔
        ∃ item ∈ image.readtext,
          item.confidence > confidenceCutoff ∧ pyStripStr item.text ≠ "" ∧
          te = { text := pyStripStr item.text, bbox := quadBBox item.bbox,
                 confidence := item.confidence, page := page_num + 1 })
    ∧ (∀ (images : List PageImage) (ce : CoordElement),
      ce ∈ (process_pdf_for_llm images).text_with_coordinates →
        ce.confidence > confidenceCutoff ∧ ce.text ≠ "") := by
  refine ⟨mem_pageExtract, ?_⟩
  intro images ce hce
  simp only [process_pdf_for_llm, format_for_llm, List.mem_flatMap] at hce
  obtain ⟨p, hp, hmem⟩ := hce
  simp only [List.mem_map] at hmem
  obtain ⟨e, he, rfl⟩ := hmem
  have he' : e ∈ p.text_elements := by
    have := List.mem_mergeSort.mp he
    exact this
  simp only [extract_from_pdf, List.mem_map] at hp
  obtain ⟨pi, -, rfl⟩ := hp
  exact pageExtract_invariant pi.1 pi.2 e he'

/-- Witness for C2: a concrete raw token with confidence 0.9 and
strippable text is retained. -/
theorem C2_token_filtering_witness :
    ({ text := "ab", bbox := quadBBox ⟨(1, 5), (9, 5), (9, 20), (1, 20)⟩,
       confidence := mkRat 9 10, page := 1 } : TextElement)
      ∈ (pageExtract 0
          ⟨100, 100, [⟨⟨(1, 5), (9, 5), (9, 20), (1, 20)⟩, " ab ", mkRat 9 10⟩]⟩).text_elements :=
  (C2_token_filtering.1 0
      ⟨100, 100, [⟨⟨(1, 5), (9, 5), (9, 20), (1, 20)⟩, " ab ", mkRat 9 10⟩]⟩ _).mpr
    ⟨⟨⟨(1, 5), (9, 5), (9, 20), (1, 20)⟩, " ab ", mkRat 9 10⟩,
      by decide, by decide, by decide, by decide⟩

/-- **C9**: the derived axis-aligned bounding box of every retained
token is the pointwise min/max of its quadrilateral's coordinates; in
particular for the quad `[(1,5),(9,5),(9,20),(1,20)]` the box is
`[1,5,9,20]`. -/
theorem C9_bounding_box :
    (∀ (page_num : Nat) (image : PageImage) (te : TextElement),
      te ∈ (pageExtract page_num image).text_elements →
      ∃ item ∈ image.readtext,
        te.bbox =
          { x0 := min (min (min item.bbox.p1.1 item.bbox.p2.1) item.bbox.p3.1) item.bbox.p4.1
            y0 := min (min (min item.bbox.p1.2 item.bbox.p2.2) item.bbox.p3.2) item.bbox.p4.2
            x1 := max (max (max item.bbox.p1.1 item.bbox.p2.1) item.bbox.p3.1) item.bbox.p4.1
            y1 := max (max (max item.bbox.p1.2 item.bbox.p2.2) item.bbox.p3.2) item.bbox.p4.2 })
    ∧ quadBBox ⟨(1, 5), (9, 5), (9, 20), (1, 20)⟩ = ⟨1, 5, 9, 20⟩ := by
  constructor
  · intro page_num image te h
    obtain ⟨item, hmem, -, -, rfl⟩ := (mem_pageExtract page_num image te).mp h
    exact ⟨item, hmem, rfl⟩
  · decide

/-- Witness for C9: the general part applied to the concrete page. -/
theorem C9_bounding_box_witness :
    ∃ item ∈ [(⟨⟨(1, 5), (9, 5), (9, 20), (1, 20)⟩, " ab ", mkRat 9 10⟩ : RawOCRItem)],
      ({ text := "ab", bbox := quadBBox ⟨(1, 5), (9, 5), (9, 20), (1, 20)⟩,
         confidence := mkRat 9 10, page := 1 } : TextElement).bbox =
        { x0 := min (min (min item.bbox.p1.1 item.bbox.p2.1) item.bbox.p3.1) item.bbox.p4.1
          y0 := min (min (min item.bbox.p1.2 item.bbox.p2.2) item.bbox.p3.2) item.bbox.p4.2
          x1 := max (max (max item.bbox.p1.1 item.bbox.p2.1) item.bbox.p3.1) item.bbox.p4.1
          y1 := max (max (max item.bbox.p1.2 item.bbox.p2.2) item.bbox.p3.2) item.bbox.p4.2 } :=
  C9_bounding_box.1 0
    ⟨100, 100, [⟨⟨(1, 5), (9, 5), (9, 20), (1, 20)⟩, " ab ", mkRat 9 10⟩]⟩ _ (by decide)

/-- Helper: the reading-order comparison is transitive. -/
theorem readingOrderLE_trans (a b c : TextElement)
    (h1 : readingOrderLE a b) (h2 : readingOrderLE b c) : readingOrderLE a c := by
  simp only [readingOrderLE, decide_eq_true_eq] at *
  rcases h1 with h1 | ⟨he1, hx1⟩ <;> rcases h2 with h2 | ⟨he2, hx2⟩
  · exact Or.inl (lt_trans h1 h2)
  · exact Or.inl (he2 ▸ h1)
  · exact Or.inl (he1 ▸ h2)
  · exact Or.inr ⟨he1.trans he2, le_trans hx1 hx2⟩

/-- Helper: the reading-order comparison is total. -/
theorem readingOrderLE_total (a b : TextElement) :
    readingOrderLE a b || readingOrderLE b a := by
  simp only [readingOrderLE, Bool.or_eq_true, decide_eq_true_eq]
  rcases lt_trichotomy a.bbox.y0 b.bbox.y0 with h | h | h
  · exact Or.inl (Or.inl h)
  · rcases le_total a.bbox.x0 b.bbox.x0 with hx | hx
    · exact Or.inl (Or.inr ⟨h, hx⟩)
    · exact Or.inr (Or.inr ⟨h.symm, hx⟩)
  · exact Or.inr (Or.inl h)

/-- **C3**: the per-page reading-order sort is a permutation of the
retained elements, is sorted by the `(y0, x0)` key, and is stable: for
any fixed key, the elements carrying that key appear in the sorted
output exactly in their original extraction order.  Formatting is a
pure function, so formatting the same token sequence twice yields
identical output. -/
theorem C3_reading_order :
    (∀ elems : List TextElement, (sortPageElements elems).Perm elems)
    ∧ (∀ elems : List TextElement,
        (sortPageElements elems).Pairwise (fun a b => readingOrderLE a b = true))
    ∧ (∀ (elems : List TextElement) (y x : Rat),
        (sortPageElements elems).filter
            (fun e => decide (e.bbox.y0 = y ∧ e.bbox.x0 = x)) =
          elems.filter (fun e => decide (e.bbox.y0 = y ∧ e.bbox.x0 = x)))
    ∧ (∀ ocr_data : List PageData, format_for_llm ocr_data = format_for_llm ocr_data) := by
  refine ⟨fun elems => List.mergeSort_perm elems readingOrderLE,
    fun elems => List.sorted_mergeSort readingOrderLE_trans readingOrderLE_total elems,
    ?_, fun _ => rfl⟩
  intro elems y x
  have hpw : (elems.filter (fun e => decide (e.bbox.y0 = y ∧ e.bbox.x0 = x))).Pairwise
      (fun a b => readingOrderLE a b = true) := by
    apply List.pairwise_of_forall_mem_list
    intro a ha b hb
    have ha' := List.of_mem_filter ha
    have hb' := List.of_mem_filter hb
    simp only [decide_eq_true_eq] at ha' hb'
    simp only [readingOrderLE, decide_eq_true_eq]
    exact Or.inr ⟨ha'.1.trans hb'.1.symm, ha'.2.trans_le hb'.2.symm.le⟩
  have hsub : List.Sublist
      (elems.filter (fun e => decide (e.bbox.y0 = y ∧ e.bbox.x0 = x)))
      (sortPageElements elems) :=
    List.sublist_mergeSort readingOrderLE_trans readingOrderLE_total hpw
      (List.filter_sublist elems)
  have hsub2 := hsub.filter (fun e => decide (e.bbox.y0 = y ∧ e.bbox.x0 = x))
  rw [List.filter_filter] at hsub2
  simp only [Bool.and_self] at hsub2
  have hlen : ((sortPageElements elems).filter
      (fun e => decide (e.bbox.y0 = y ∧ e.bbox.x0 = x))).length =
      (elems.filter (fun e => decide (e.bbox.y0 = y ∧ e.bbox.x0 = x))).length :=
    ((List.mergeSort_perm elems readingOrderLE).filter _).length_eq
  exact (hsub2.eq_of_length hlen.symm).symm

/-- **C5**: validating against the bank-statement schema fails whenever
any transaction leaf field is a bare scalar (number, string or boolean)
instead of the required FieldValue object, while the four-key object
shape and `null` are both accepted. -/
theorem C5_schema_shape :
    (∀ f ∈ txnFieldNames, ∀ v : Json, v.isScalar = true →
      jsonschema_validate bank_statement_schema (mkTxnInstance f v) = false)
    ∧ jsonschema_validate bank_statement_schema (mkTxnInstance "balance" fieldValue29293) = true
    ∧ jsonschema_validate bank_statement_schema (mkTxnInstance "balance" Json.null) = true := by
  refine ⟨?_, by decide, by decide⟩
  intro f hf v hv
  fin_cases hf <;> cases v <;> first | rfl | simp [Json.isScalar] at hv

/-- Witness for C5: the bare scalar `"balance": 29293.0` is rejected. -/
theorem C5_schema_shape_witness :
    jsonschema_validate bank_statement_schema
      (mkTxnInstance "balance" (Json.num 29293)) = false :=
  C5_schema_shape.1 "balance" (by decide) (Json.num 29293) rfl

/-- **C10**: deserializing a leaf object into `FieldValue` succeeds
with the declared defaults for every absent key — `value = null`,
`position = []`, `confidence = 1.0`, `review_required = false` — and
in particular the empty object yields exactly those defaults. -/
theorem C10_fieldvalue_defaults :
    (∀ (kvs : List (String × Json)) (fv : FieldValue),
      FieldValue.parse_obj kvs = Except.ok fv →
        (kvs.lookup "value" = none → fv.value = Json.null)
        ∧ (kvs.lookup "position" = none → fv.position = some [])
        ∧ (kvs.lookup "confidence" = none → fv.confidence = some 1)
        ∧ (kvs.lookup "review_required" = none → fv.review_required = some false))
    ∧ FieldValue.parse_obj [] = Except.ok ⟨Json.null, some [], some 1, some false⟩ := by
  constructor
  · intro kvs fv h
    rcases hp : fvPosition kvs with ep | p <;>
      rcases hc : fvConfidence kvs with ec | c <;>
        rcases hr : fvReviewRequired kvs with er | r <;>
          simp only [FieldValue.parse_obj, hp, hc, hr] at h
    any_goals exact Except.noConfusion h
    injection h with h2
    subst h2
    refine ⟨?_, ?_, ?_, ?_⟩ <;> intro hk
    · simp [fvValue, hk]
    · simp only [fvPosition, hk] at hp
      injection hp with h3
      exact h3.symm
    · simp only [fvConfidence, hk] at hc
      injection hc with h3
      exact h3.symm
    · simp only [fvReviewRequired, hk] at hr
      injection hr with h3
      exact h3.symm
  · rfl

/-- Witness for C10: an object carrying only `confidence` parses, all
other fields defaulting. -/
theorem C10_fieldvalue_defaults_witness :
    ({ value := Json.null, position := some [], confidence := some 2,
       review_required := some false } : FieldValue).review_required = some false :=
  (C10_fieldvalue_defaults.1 [("confidence", Json.num 2)]
    ⟨Json.null, some [], some 2, some false⟩ rfl).2.2.2 rfl

/-- **C4**: the coordinate reference holds exactly one line per entry
of `text_with_coordinates`, in listing order and each rendered by
`coordLine` (index, text, page, box, confidence); its total length is
the number of retained tokens over all pages (no truncation); and the
hybrid prompt is the prefix — which states the total token count and
the total page count — followed by the complete listing and the
suffix. -/
theorem C4_coordinate_reference :
    (∀ ocr : OcrData, (coordLines ocr).length = ocr.text_with_coordinates.length)
    ∧ (∀ (ocr : OcrData) (i : Nat) (h1 : i < (coordLines ocr).length)
        (h2 : i < ocr.text_with_coordinates.length),
        (coordLines ocr).get ⟨i, h1⟩ = coordLine i (ocr.text_with_coordinates.get ⟨i, h2⟩))
    ∧ (∀ images : List PageImage,
        (coordLines (process_pdf_for_llm images)).length =
          ((extract_from_pdf images).map (fun p => p.text_elements.length)).sum)
    ∧ (∀ (ocr : OcrData) (schema : Json) (document_type : String),
        create_hybrid_prompt ocr schema document_type =
          create_hybrid_prompt_prefix ocr document_type ++ format_coordinate_info ocr ++
            create_hybrid_prompt_suffix schema ocr.document_info.total_pages
        ∧ ∃ s1 s2 s3, create_hybrid_prompt_prefix ocr document_type =
            s1 ++ toString ocr.text_with_coordinates.length ++ s2 ++
              toString ocr.document_info.total_pages ++ s3) := by
  refine ⟨?_, ?_, ?_, ?_⟩
  · intro ocr
    simp [coordLines]
  · intro ocr i h1 h2
    simp [coordLines, List.get_eq_getElem, List.getElem_map, List.getElem_enum]
  · intro images
    simp only [coordLines, process_pdf_for_llm, format_for_llm, List.length_map,
      List.enum_length, List.flatMap_def, List.length_flatten, List.map_map]
    refine congrArg List.sum (List.map_congr_left ?_)
    intro p hp
    simp [sortPageElements, Function.comp]
  · intro ocr schema document_type
    exact ⟨rfl, promptP1 document_type, promptP2,
      promptP3 ocr.text_with_coordinates.length ocr.document_info.total_pages, rfl⟩

/-- Witness for C4: the single-token listing's first line is the
rendering of that token. -/
theorem C4_coordinate_reference_witness :
    (coordLines ⟨⟨1, 1⟩, [], "", [⟨"ab", 1, ⟨1, 5, 9, 20⟩, mkRat 9 10⟩]⟩).get
        ⟨0, by decide⟩ =
      coordLine 0 ⟨"ab", 1, ⟨1, 5, 9, 20⟩, mkRat 9 10⟩ :=
  C4_coordinate_reference.2.1 ⟨⟨1, 1⟩, [], "", [⟨"ab", 1, ⟨1, 5, 9, 20⟩, mkRat 9 10⟩]⟩
    0 (by decide) (by decide)

/-- **C7**: on every exit path of the hybrid pipeline — success, and
failure at OCR extraction, upload, model invocation, the empty-response
check, JSON parsing or schema validation — the temporary upload file
does not survive the call: the `finally` cleanup always removes it when
it was created. -/
theorem C7_temp_cleanup (env : HybridEnv) (schema : Json) (model_name : String) :
    (process_document_hybrid env schema model_name).tempRemaining = false := by
  unfold process_document_hybrid
  split
  · rfl
  · cases h : (hybridBody env schema model_name).2 <;> simp [cleanupTemp, h]

/-- **C8**: a zero-page PDF is not an error: extraction over an empty
page sequence yields an empty per-page list with zero totals, and when
the remaining stages succeed the hybrid pipeline returns a successful
result with `pages_processed = 0`. -/
theorem C8_empty_document :
    (∀ (env : HybridEnv) (schema : Json) (model_name up rt : String) (j : Json),
      env.configured = true →
      env.pages = Except.ok [] →
      env.upload = Except.ok up →
      env.generate = Except.ok rt →
      rt ≠ "" →
      extract_json_from_response rt = Except.ok j →
      jsonschema_validate schema j = true →
      ∃ r, (process_document_hybrid env schema model_name).result = Except.ok r ∧
        r.pages_processed = 0 ∧ r.structured_data = j)
    ∧ extract_from_pdf [] = []
    ∧ (format_for_llm (extract_from_pdf [])).document_info.total_pages = 0 := by
  refine ⟨?_, rfl, rfl⟩
  intro env schema model_name up rt j hconf hpages hup hgen hne hext hval
  refine ⟨{ structured_data := j
            confidence := mkRat 95 100
            processing_notes := "Processed with hybrid PDF + EasyOCR approach using " ++
              model_name ++ ". Coordinates provided directly by Gemini."
            pages_processed := (process_pdf_for_llm []).document_info.total_pages
            model_used := model_name
            ocr_stats := ⟨(process_pdf_for_llm []).document_info.total_text_elements,
              (process_pdf_for_llm []).document_info.total_pages⟩
            approach := "hybrid_pdf_easyocr" }, ?_, rfl, rfl⟩
  unfold process_document_hybrid
  rw [if_neg (by simp [hconf])]
  simp only [hybridBody, hpages, hup, hgen, if_neg hne, hext, if_pos hval]

/-- Witness for C8: all hypotheses are satisfiable — an all-null
bank-statement response on a zero-page document succeeds with zero
pages processed. -/
theorem C8_empty_document_witness :
    ∃ r, (process_document_hybrid
        ⟨true, Except.ok [], Except.ok "files/abc",
          Except.ok "\x7b\"basic_information\": null, \"transactions\": null\x7d"⟩
        bank_statement_schema "gemini-2.5-flash-lite").result = Except.ok r ∧
      r.pages_processed = 0 ∧
      r.structured_data =
        Json.obj [("basic_information", Json.null), ("transactions", Json.null)] :=
  C8_empty_document.1
    ⟨true, Except.ok [], Except.ok "files/abc",
      Except.ok "\x7b\"basic_information\": null, \"transactions\": null\x7d"⟩
    bank_statement_schema "gemini-2.5-flash-lite" "files/abc"
    "\x7b\"basic_information\": null, \"transactions\": null\x7d"
    (Json.obj [("basic_information", Json.null), ("transactions", Json.null)])
    rfl rfl rfl rfl (by decide) rfl (by decide)

/-- Helper: every response the endpoint's `try` body returns has
status `"success"`. -/
theorem process_body_status (req : Request) (env : ServiceEnv) (r : OCRResponse)
    (h : process_body req env = Except.ok r) : r.status = "success" := by
  unfold process_body at h
  repeat' split at h
  all_goals try simp only [] at h
  repeat' split at h
  all_goals
    first
      | exact Except.noConfusion h
      | (injection h with h2; subst h2; rfl)

/-- **C6 (amended)**: every response envelope the endpoint returns is
either a success or the uniform error shape (`status = "error"`,
`pages_processed = 0`, an error message); a pipeline failure raised as
a plain exception is converted into that envelope, but a failure
raised as an `HTTPException` re-raises to the transport layer instead
of being wrapped. -/
theorem C6_uniform_error_envelope :
    (∀ (req : Request) (env : ServiceEnv) (r : OCRResponse),
      process_document req env = Except.ok r →
      r.status = "success" ∨
        (r.status = "error" ∧ r.pages_processed = 0 ∧ r.error.isSome = true))
    ∧ (∀ (req : Request) (env : ServiceEnv) (m : String),
      process_body req env = Except.error (PyErr.exc m) →
      process_document req env = Except.ok (error_envelope env.elapsed_ms m))
    ∧ (∀ (req : Request) (env : ServiceEnv) (s : Nat) (d : String),
      process_body req env = Except.error (PyErr.http s d) →
      process_document req env = Except.error ⟨s, d⟩) := by
  refine ⟨?_, ?_, ?_⟩
  · intro req env r h
    unfold process_document at h
    rcases hb : process_body req env with e | r0
    · rcases e with ⟨s, d⟩ | m
      · rw [hb] at h
        exact Except.noConfusion h
      · rw [hb] at h
        injection h with h2
        subst h2
        exact Or.inr ⟨rfl, rfl, rfl⟩
    · rw [hb] at h
      injection h with h2
      subst h2
      exact Or.inl (process_body_status req env r0 hb)
  · intro req env m h
    simp only [process_document, h]
  · intro req env s d h
    simp only [process_document, h]

/-- Counterexample for C6 as stated: a schema-validation failure
surfaces from the Gemini service as an `HTTPException`, which the
endpoint re-raises (`except HTTPException: raise`) instead of turning
it into the uniform error envelope. -/
theorem C6_uniform_error_envelope_counterexample :
    process_document
      { filename := "doc.pdf", content_length := 0,
        model_name := "gemini-2.5-flash-lite", document_type := "bank_statement",
        custom_schema := none, extract_tables := true }
      { gemini_available := true,
        gemini := Except.error (PyErr.http 500 "Schema validation failed: boom"),
        ocr := Except.ok ⟨"", [], 0, 1⟩,
        llm := Except.ok ⟨Json.null⟩,
        elapsed_ms := 5 } =
      Except.error ⟨500, "Schema validation failed: boom"⟩ := rfl

/-- Witness for C6: a plain (non-HTTP) exception from the pipeline is
converted to the uniform error envelope. -/
theorem C6_uniform_error_envelope_witness :
    process_document
      { filename := "doc.pdf", content_length := 0,
        model_name := "gemini-2.5-flash-lite", document_type := "bank_statement",
        custom_schema := none, extract_tables := true }
      { gemini_available := true,
        gemini := Except.error (PyErr.exc "boom"),
        ocr := Except.ok ⟨"", [], 0, 1⟩,
        llm := Except.ok ⟨Json.null⟩,
        elapsed_ms := 5 } =
      Except.ok (error_envelope 5 "boom") :=
  C6_uniform_error_envelope.2.1
    { filename := "doc.pdf", content_length := 0,
      model_name := "gemini-2.5-flash-lite", document_type := "bank_statement",
      custom_schema := none, extract_tables := true }
    { gemini_available := true,
      gemini := Except.error (PyErr.exc "boom"),
      ocr := Except.ok ⟨"", [], 0, 1⟩,
      llm := Except.ok ⟨Json.null⟩,
      elapsed_ms := 5 } "boom" rfl
